import Mathlib

/-!
A shallow embedding of `scripts/css-extract.py`: the `SECTIONS` manifest, the
`INDEX_TEMPLATE` aggregator template, the extraction routine
`extract_sections`, the verification routine `verify_output` and the
command-line entry point, together with theorems settling the specified
properties (coverage, round-trip, manifest/aggregator parity, error handling).

Modelling conventions:
* a source document is the list of its lines as produced by Python
  `readlines` — each element carries its line terminator;
* file contents handled at the byte level (in `verify_output`) are lists of
  byte values (`List Nat`);
* filesystem effects are recorded as an explicit event trace (`FsEvent`);
  reading a file is an `Option` parameter (`none` models a missing or
  unreadable file, where Python raises `FileNotFoundError`);
* Python `dict` iteration order is insertion order, so `SECTIONS` is a list
  in declaration order.
-/

/-- One entry of the `SECTIONS` manifest of `css-extract.py`: output path
relative to `static/css`, with its 1-indexed `(start_line, end_line)` pair. -/
structure SectionEntry where
  path : String
  start_line : Nat
  end_line : Nat
deriving DecidableEq

/-- The `SECTIONS` manifest of `css-extract.py`, in declaration (insertion)
order: each output path mapped to its `(start_line, end_line)` range. -/
def SECTIONS : List SectionEntry := [
  ⟨"base/variables.css", 5, 95⟩,
  ⟨"base/reset.css", 96, 122⟩,
  ⟨"base/typography.css", 123, 141⟩,
  ⟨"layout/app.css", 142, 156⟩,
  ⟨"layout/page-header.css", 1247, 1260⟩,
  ⟨"layout/search-filter.css", 1260, 1305⟩,
  ⟨"layout/empty-states.css", 1305, 1335⟩,
  ⟨"layout/pagination.css", 1343, 1379⟩,
  ⟨"layout/form-layout.css", 3325, 3384⟩,
  ⟨"components/sidebar.css", 156, 192⟩,
  ⟨"components/navbar.css", 192, 417⟩,
  ⟨"components/buttons.css", 417, 500⟩,
  ⟨"components/forms.css", 500, 629⟩,
  ⟨"components/tables.css", 629, 680⟩,
  ⟨"components/alerts.css", 680, 703⟩,
  ⟨"components/cards.css", 703, 1203⟩,
  ⟨"components/badges.css", 1203, 1247⟩,
  ⟨"components/tab-bar.css", 1548, 1575⟩,
  ⟨"components/relation-cards.css", 1725, 1790⟩,
  ⟨"components/graph-panel.css", 1843, 1872⟩,
  ⟨"components/pipeline-tabs.css", 3020, 3057⟩,
  ⟨"components/detail-card.css", 3084, 3115⟩,
  ⟨"components/section.css", 3300, 3325⟩,
  ⟨"components/tabs.css", 4511, 4549⟩,
  ⟨"components/tor-context.css", 5575, 5627⟩,
  ⟨"pages/error.css", 1379, 1425⟩,
  ⟨"pages/login.css", 1425, 1490⟩,
  ⟨"pages/ontology.css", 1575, 1725⟩,
  ⟨"pages/schema-tables.css", 1790, 1843⟩,
  ⟨"pages/graph.css", 1872, 2132⟩,
  ⟨"pages/data-browser.css", 2400, 2483⟩,
  ⟨"pages/entity-detail.css", 2483, 2619⟩,
  ⟨"pages/role-permissions.css", 2690, 2886⟩,
  ⟨"pages/menu-builder.css", 2886, 3020⟩,
  ⟨"pages/inline-form.css", 3115, 3146⟩,
  ⟨"pages/tor-grid.css", 3384, 3507⟩,
  ⟨"pages/tor-info-grid.css", 3507, 3551⟩,
  ⟨"pages/positions-list.css", 3551, 3629⟩,
  ⟨"pages/functions-list.css", 3629, 3675⟩,
  ⟨"pages/protocol-steps.css", 3675, 3770⟩,
  ⟨"pages/dependency-flow.css", 3770, 3864⟩,
  ⟨"pages/governance-cards.css", 3864, 3916⟩,
  ⟨"pages/governance-graph.css", 3916, 4132⟩,
  ⟨"pages/calendar.css", 4132, 4511⟩,
  ⟨"pages/profile.css", 4604, 4685⟩,
  ⟨"pages/users-list.css", 4685, 5053⟩,
  ⟨"pages/point-paper.css", 5289, 5686⟩,
  ⟨"pages/role-list.css", 5686, 5874⟩,
  ⟨"pages/role-builder.css", 5874, 6142⟩,
  ⟨"utilities/utilities.css", 1490, 1495⟩,
  ⟨"utilities/scrollbar.css", 1495, 1514⟩,
  ⟨"utilities/animations.css", 1514, 1537⟩,
  ⟨"utilities/focus.css", 1537, 1548⟩,
  ⟨"utilities/muted-id.css", 1335, 1343⟩,
  ⟨"utilities/responsive.css", 2619, 2690⟩,
  ⟨"utilities/status-badges.css", 3057, 3084⟩,
  ⟨"utilities/warning-styles.css", 3146, 3210⟩,
  ⟨"utilities/theme-selection.css", 4549, 4599⟩]

/-- The module paths referenced by the `@import` directives of
`INDEX_TEMPLATE`, in their order of appearance in the template (the curated
aggregator order). -/
def INDEX_IMPORTS : List String := [
  "base/variables.css",
  "base/reset.css",
  "base/typography.css",
  "layout/app.css",
  "layout/page-header.css",
  "layout/search-filter.css",
  "layout/empty-states.css",
  "layout/pagination.css",
  "layout/form-layout.css",
  "components/sidebar.css",
  "components/navbar.css",
  "components/buttons.css",
  "components/forms.css",
  "components/tables.css",
  "components/alerts.css",
  "components/cards.css",
  "components/badges.css",
  "components/tab-bar.css",
  "components/relation-cards.css",
  "components/graph-panel.css",
  "components/pipeline-tabs.css",
  "components/detail-card.css",
  "components/section.css",
  "components/tabs.css",
  "components/tor-context.css",
  "pages/error.css",
  "pages/login.css",
  "pages/ontology.css",
  "pages/schema-tables.css",
  "pages/graph.css",
  "pages/data-browser.css",
  "pages/entity-detail.css",
  "pages/role-permissions.css",
  "pages/menu-builder.css",
  "pages/inline-form.css",
  "pages/tor-grid.css",
  "pages/tor-info-grid.css",
  "pages/positions-list.css",
  "pages/functions-list.css",
  "pages/protocol-steps.css",
  "pages/dependency-flow.css",
  "pages/governance-cards.css",
  "pages/governance-graph.css",
  "pages/calendar.css",
  "pages/profile.css",
  "pages/users-list.css",
  "pages/point-paper.css",
  "pages/role-list.css",
  "pages/role-builder.css",
  "utilities/utilities.css",
  "utilities/scrollbar.css",
  "utilities/animations.css",
  "utilities/focus.css",
  "utilities/muted-id.css",
  "utilities/responsive.css",
  "utilities/status-badges.css",
  "utilities/warning-styles.css",
  "utilities/theme-selection.css"]

/-- The `INDEX_TEMPLATE` constant of `css-extract.py`: the fixed content of
the aggregator file `static/css/index.css`, a header comment plus one
`@import` directive per module, grouped by category with blank lines. -/
def INDEX_TEMPLATE : String :=
  "/* ==========================================\n   Ahlt — Design System (Modular)\n   Compiled via PostCSS @import\n   ========================================== */\n\n@import \"base/variables.css\";\n@import \"base/reset.css\";\n@import \"base/typography.css\";\n\n@import \"layout/app.css\";\n@import \"layout/page-header.css\";\n@import \"layout/search-filter.css\";\n@import \"layout/empty-states.css\";\n@import \"layout/pagination.css\";\n@import \"layout/form-layout.css\";\n\n@import \"components/sidebar.css\";\n@import \"components/navbar.css\";\n@import \"components/buttons.css\";\n@import \"components/forms.css\";\n@import \"components/tables.css\";\n@import \"components/alerts.css\";\n@import \"components/cards.css\";\n@import \"components/badges.css\";\n@import \"components/tab-bar.css\";\n@import \"components/relation-cards.css\";\n@import \"components/graph-panel.css\";\n@import \"components/pipeline-tabs.css\";\n@import \"components/detail-card.css\";\n@import \"components/section.css\";\n@import \"components/tabs.css\";\n@import \"components/tor-context.css\";\n\n@import \"pages/error.css\";\n@import \"pages/login.css\";\n@import \"pages/ontology.css\";\n@import \"pages/schema-tables.css\";\n@import \"pages/graph.css\";\n@import \"pages/data-browser.css\";\n@import \"pages/entity-detail.css\";\n@import \"pages/role-permissions.css\";\n@import \"pages/menu-builder.css\";\n@import \"pages/inline-form.css\";\n@import \"pages/tor-grid.css\";\n@import \"pages/tor-info-grid.css\";\n@import \"pages/positions-list.css\";\n@import \"pages/functions-list.css\";\n@import \"pages/protocol-steps.css\";\n@import \"pages/dependency-flow.css\";\n@import \"pages/governance-cards.css\";\n@import \"pages/governance-graph.css\";\n@import \"pages/calendar.css\";\n@import \"pages/profile.css\";\n@import \"pages/users-list.css\";\n@import \"pages/point-paper.css\";\n@import \"pages/role-list.css\";\n@import \"pages/role-builder.css\";\n\n@import \"utilities/utilities.css\";\n@import \"utilities/scrollbar.css\";\n@import \"utilities/animations.css\";\n@import \"utilities/focus.css\";\n@import \"utilities/muted-id.css\";\n@import \"utilities/responsive.css\";\n@import \"utilities/status-badges.css\";\n@import \"utilities/warning-styles.css\";\n@import \"utilities/theme-selection.css\";\n"

/-- A recorded filesystem effect: `mkdirP d` models
`Path.mkdir(parents=True, exist_ok=True)` on directory `d`, and
`write p c` models `Path(p).write_text(c)`. -/
inductive FsEvent where
  | mkdirP (dir : String)
  | write (path : String) (content : String)
deriving DecidableEq

/-- Full on-disk path of a module: `Path("static/css") / output_path`. -/
def modulePath (p : String) : String := "static/css/" ++ p

/-- Parent directory of a path (`Path(...).parent`): the characters before
the last path separator, computed on the character list. -/
def parentDir (p : String) : String :=
  String.mk ((((p.data.reverse).dropWhile (fun c => decide (c ≠ '/'))).drop 1).reverse)

/-- Content extracted for one manifest entry:
`"".join(lines[start_line - 1 : end_line])` — the Python slice from index
`start_line - 1` (inclusive) to index `end_line` (exclusive). -/
def sectionContent (lines : List String) (e : SectionEntry) : String :=
  String.join ((lines.drop (e.start_line - 1)).take (e.end_line - (e.start_line - 1)))

/-- Filesystem events performed for one manifest entry, in program order:
create the parent directory, then write the sliced content. -/
def entryEvents (lines : List String) (e : SectionEntry) : List FsEvent :=
  [FsEvent.mkdirP (parentDir (modulePath e.path)),
   FsEvent.write (modulePath e.path) (sectionContent lines e)]

/-- The body of `extract_sections`, parameterized by the manifest and by the
result of reading the source file (`none` = `open` raised, in which case the
function aborts with no events). On success it returns the event trace — one
`mkdirP`/`write` pair per manifest entry in declaration order, then the write
of `static/css/index.css` with `INDEX_TEMPLATE` — and the `created_files`
list returned by the Python function. -/
def extractSectionsWith (sections : List SectionEntry)
    (readResult : Option (List String)) :
    List FsEvent × Except String (List String) :=
  match readResult with
  | none => ([], Except.error "FileNotFoundError: style_css_path")
  | some lines =>
      ((sections.flatMap (entryEvents lines)) ++
        [FsEvent.write "static/css/index.css" INDEX_TEMPLATE],
       Except.ok (sections.map (fun e => modulePath e.path)))

/-- `extract_sections` of `css-extract.py`: `extractSectionsWith` applied to
the global `SECTIONS` manifest. -/
def extract_sections (readResult : Option (List String)) :
    List FsEvent × Except String (List String) :=
  extractSectionsWith SECTIONS readResult

/-- The report printed by `verify_output`: success, a mismatch with the two
lengths as measured by Python `len`, or the `Cannot verify` message of the
`FileNotFoundError` handler. -/
inductive VerifyReport where
  | identical
  | differs (originalLen compiledLen : Nat)
  | cannotVerify
deriving DecidableEq

/-- Universal-newline translation applied by Python when a file is opened in
text mode (`open(path, "r")` with `newline=None`): `\r\n` and a lone `\r`
both become `\n` (byte 13 / pair 13,10 become byte 10). -/
def univNewlines : List Nat → List Nat
  | [] => []
  | 13 :: 10 :: rest => 10 :: univNewlines rest
  | 13 :: rest => 10 :: univNewlines rest
  | b :: rest => b :: univNewlines rest

/-- `verify_output` of `css-extract.py`, over the raw bytes of the two files
(`none` = file missing). The files are opened in text mode, so their bytes
pass through `univNewlines` before the equality test, and the reported
lengths are lengths of the decoded texts. Returns the Python return value
paired with the printed report. -/
def verify_output (original compiled : Option (List Nat)) :
    Bool × VerifyReport :=
  match original with
  | none => (false, VerifyReport.cannotVerify)
  | some ob =>
    match compiled with
    | none => (false, VerifyReport.cannotVerify)
    | some cb =>
      let o := univNewlines ob
      let c := univNewlines cb
      if o = c then (true, VerifyReport.identical)
      else (false, VerifyReport.differs o.length c.length)

/-- The `__main__` block of `css-extract.py`. Inputs: the command-line
arguments, the read of the source file, and the raw bytes of the two files
`verify_output` would read. Returns the process exit status paired with the
result of `verify_output` when it ran (`none` when it did not). An
`Except.error` from `extract_sections` models the uncaught
`FileNotFoundError`, which terminates the interpreter with exit status 1;
otherwise the script falls off the end and exits 0 — the return value of
`verify_output` is never consulted. -/
def pythonMain (args : List String) (sourceRead : Option (List String))
    (originalBytes compiledBytes : Option (List Nat)) :
    Nat × Option (Bool × VerifyReport) :=
  match (extract_sections sourceRead).2 with
  | Except.error _ => (1, none)
  | Except.ok _ =>
    if args.contains "--verify" then
      (0, some (verify_output originalBytes compiledBytes))
    else
      (0, none)

/-- Concatenation of the contents of all module files written by
`extract_sections`, taken in the curated order in which `INDEX_TEMPLATE`
imports them: for each imported path, the content is that of the `SECTIONS`
entry with that path. -/
def aggregatorConcat (lines : List String) : String :=
  String.join (INDEX_IMPORTS.map (fun p =>
    match SECTIONS.find? (fun e => e.path == p) with
    | some e => sectionContent lines e
    | none => ""))

/-- A manifest entry covers 1-indexed line `L` when
`start_line ≤ L ≤ end_line` (the inclusive range the entry extracts). -/
def covers (e : SectionEntry) (L : Nat) : Bool :=
  decide (e.start_line ≤ L ∧ L ≤ e.end_line)

/-- Content of the event if it is a write to path `p`. -/
def writeTo (p : String) : FsEvent → Option String
  | FsEvent.write q c => if q = p then some c else none
  | _ => none

/-- Final content of path `p` after a trace of events: the content of the
last write to `p` (later writes replace earlier ones). -/
def finalWrite (events : List FsEvent) (p : String) : Option String :=
  events.reverse.findSome? (writeTo p)

/-- A contiguous slice of a list, as `drop`/`take`, equals the map over the
index range of its positional elements. -/
theorem drop_take_eq_map_range {α : Type} (d : α) (l : List α) (k n : Nat)
    (h : k + n ≤ l.length) :
    (l.drop k).take n = (List.range n).map (fun j => l.getD (k + j) d) := by
  apply List.ext_getElem
  · simp; omega
  · intro i h1 h2
    have hi : i < n := by simpa using h2
    simp [List.getElem_take, List.getElem_drop, List.getElem_map, List.getElem_range]
    rw [List.getElem?_eq_getElem (show k + i < l.length by omega)]
    rfl

/-- C1: the round-trip property fails on the code. For the one-line source
document `["x\n"]`, concatenating the module-file contents in the curated
order in which `INDEX_TEMPLATE` imports them yields the empty string, not
the document: every `SECTIONS` range starts at line 5 or later, so the
first four lines of any document are dropped (and shared boundary lines
such as 156 are emitted twice), hence the concatenation is not a
byte-identical reproduction of the source document. -/
theorem aggregator_concat_not_roundtrip :
    aggregatorConcat ["x\n"] = "" ∧ String.join ["x\n"] = "x\n" ∧
    aggregatorConcat ["x\n"] ≠ String.join ["x\n"] := by decide

/-- C2: the exactly-one-coverage invariant fails on the `SECTIONS` manifest.
Line 156 is contained in two entries (`layout/app.css` with range
`(142, 156)` and `components/sidebar.css` with range `(156, 192)`), and
line 1 is contained in no entry at all, so the manifest's ranges neither
cover every source line nor are pairwise disjoint. -/
theorem sections_coverage_and_overlap_violated :
    SECTIONS.countP (fun e => covers e 156) = 2 ∧
    SECTIONS.countP (fun e => covers e 1) = 0 ∧
    (⟨"layout/app.css", 142, 156⟩ : SectionEntry) ∈ SECTIONS ∧
    (⟨"components/sidebar.css", 156, 192⟩ : SectionEntry) ∈ SECTIONS ∧
    covers ⟨"layout/app.css", 142, 156⟩ 156 = true ∧
    covers ⟨"components/sidebar.css", 156, 192⟩ 156 = true := by decide

/-- C3: for every `SECTIONS` entry whose range satisfies
`1 ≤ start_line ≤ end_line ≤` document length, `extract_sections` writes the
module file at `static/css/<path>` with content exactly the concatenation of
the source document's lines `start_line` through `end_line` (1-indexed,
inclusive on both ends; each line carries its original terminator). -/
theorem extract_sections_writes_exact_range (lines : List String)
    (e : SectionEntry) (he : e ∈ SECTIONS) (h1 : 1 ≤ e.start_line)
    (h2 : e.start_line ≤ e.end_line) (h3 : e.end_line ≤ lines.length) :
    FsEvent.write (modulePath e.path)
      (String.join ((List.range (e.end_line - e.start_line + 1)).map
        (fun j => lines.getD (e.start_line - 1 + j) ""))) ∈
      (extract_sections (some lines)).1 := by
  have hc : sectionContent lines e =
      String.join ((List.range (e.end_line - e.start_line + 1)).map
        (fun j => lines.getD (e.start_line - 1 + j) "")) := by
    unfold sectionContent
    rw [show e.end_line - (e.start_line - 1) = e.end_line - e.start_line + 1 by omega]
    rw [drop_take_eq_map_range "" lines (e.start_line - 1)
      (e.end_line - e.start_line + 1) (by omega)]
  rw [← hc]
  unfold extract_sections extractSectionsWith
  apply List.mem_append_left
  exact List.mem_flatMap.mpr ⟨e, he, by simp [entryEvents]⟩

/-- Witness for C3: the first manifest entry, `base/variables.css` with
range `(5, 95)`, applied to a concrete 95-line document. -/
theorem extract_sections_writes_exact_range_witness :
    (⟨"base/variables.css", 5, 95⟩ : SectionEntry) ∈ SECTIONS ∧
    (1 ≤ 5 ∧ 5 ≤ 95 ∧ 95 ≤ (List.replicate 95 "x\n").length) ∧
    FsEvent.write (modulePath "base/variables.css")
      (String.join ((List.range (95 - 5 + 1)).map
        (fun j => (List.replicate 95 "x\n").getD (5 - 1 + j) ""))) ∈
      (extract_sections (some (List.replicate 95 "x\n"))).1 :=
  ⟨by decide, ⟨by decide, by decide, by simp⟩,
    extract_sections_writes_exact_range (List.replicate 95 "x\n")
      ⟨"base/variables.css", 5, 95⟩ (by decide) (by decide) (by decide) (by simp)⟩

/-- C4: the set of module paths that are keys of `SECTIONS` equals the set
of module paths referenced by the `@import` directives of `INDEX_TEMPLATE`,
and neither list contains a duplicate. -/
theorem manifest_aggregator_parity :
    (SECTIONS.map SectionEntry.path).Nodup ∧ INDEX_IMPORTS.Nodup ∧
    (∀ p : String, p ∈ SECTIONS.map SectionEntry.path ↔ p ∈ INDEX_IMPORTS) := by
  have hp : (SECTIONS.map SectionEntry.path).Perm INDEX_IMPORTS := by decide
  exact ⟨by decide, by decide, fun p => hp.mem_iff⟩

/-- C5: when the source file is missing or unreadable (`open` raises),
`extract_sections` aborts with the error and its event trace is empty — no
module file, directory or aggregator write happens in that run. -/
theorem extract_sections_aborts_before_writes_on_missing_source :
    (extract_sections none).1 = [] ∧
    (extract_sections none).2 =
      Except.error "FileNotFoundError: style_css_path" := ⟨rfl, rfl⟩

/-- C6: `verify_output` does not compare raw bytes. The files are opened in
text mode, so universal-newline translation applies before the equality
test: for original bytes `"a\r\n"` (97, 13, 10) and compiled bytes `"a\n"`
(97, 10), the function returns `True` and reports the files as identical
even though the two byte sequences differ. -/
theorem verify_output_not_byte_comparison :
    verify_output (some [97, 13, 10]) (some [97, 10]) =
      (true, VerifyReport.identical) ∧
    ([97, 13, 10] : List Nat) ≠ [97, 10] := by decide

/-- C7 counterexample: the "cannot verify" outcome is not distinct from the
"differs" outcome as a returned boolean — with the candidate file missing
`verify_output` returns `false`, and with both files present but different
it also returns `false`. -/
theorem verify_output_missing_same_bool_as_differs :
    verify_output (some [97]) none = (false, VerifyReport.cannotVerify) ∧
    verify_output (some [97]) (some [98]) =
      (false, VerifyReport.differs 1 1) ∧
    (verify_output (some [97]) none).1 =
      (verify_output (some [97]) (some [98])).1 := by decide

/-- C7 amended: when the original or the candidate file is missing,
`verify_output` prints the distinct `Cannot verify` report, but its returned
boolean is `false` — the same value it returns on a content mismatch. -/
theorem verify_output_missing_reports_cannot_verify
    (original compiled : Option (List Nat))
    (h : original = none ∨ compiled = none) :
    verify_output original compiled = (false, VerifyReport.cannotVerify) := by
  rcases h with h | h
  · subst h; rfl
  · subst h; cases original <;> rfl

/-- Witness for the amended C7: candidate file missing. -/
theorem verify_output_missing_reports_cannot_verify_witness :
    ((some [97] : Option (List Nat)) = none ∨
      (none : Option (List Nat)) = none) ∧
    verify_output (some [97]) none = (false, VerifyReport.cannotVerify) :=
  ⟨Or.inr rfl,
    verify_output_missing_reports_cannot_verify (some [97]) none (Or.inr rfl)⟩

/-- C8 counterexample: a `--verify` run whose verification reports a
mismatch still terminates with exit status 0 — the `__main__` block never
consults the return value of `verify_output`. -/
theorem main_exit_zero_on_mismatch :
    pythonMain ["--verify"] (some ["x\n"]) (some [97]) (some [98]) =
      (0, some (false, VerifyReport.differs 1 1)) := by rfl

/-- C8 amended: the exit status is 1 exactly when reading the source file
fails (the uncaught `FileNotFoundError`); in every other case — including a
`--verify` run whose verification reports a mismatch — the exit status is 0,
because the return value of `verify_output` is discarded. -/
theorem main_exit_status_ignores_verification (args : List String)
    (sourceLines : List String)
    (originalBytes compiledBytes : Option (List Nat)) :
    (pythonMain args (some sourceLines) originalBytes compiledBytes).1 = 0 ∧
    (pythonMain args none originalBytes compiledBytes).1 = 1 := by
  constructor
  · simp only [pythonMain, extract_sections, extractSectionsWith]
    split <;> rfl
  · rfl

/-- C9 counterexample: a manifest whose entry's range lies entirely beyond
the document's last line is not rejected. For the one-line document, the
run performs the entry's directory creation and writes an empty file for
it, then writes the aggregator, and completes successfully — no
`RangeOutOfBounds` error exists anywhere in the program. -/
theorem out_of_range_entry_writes_empty_file :
    (extractSectionsWith [⟨"pages/ghost.css", 5, 6⟩] (some ["x\n"])).1 =
      [FsEvent.mkdirP "static/css/pages",
       FsEvent.write "static/css/pages/ghost.css" "",
       FsEvent.write "static/css/index.css" INDEX_TEMPLATE] ∧
    (extractSectionsWith [⟨"pages/ghost.css", 5, 6⟩] (some ["x\n"])).2 =
      Except.ok ["static/css/pages/ghost.css"] := by
  constructor <;> rfl

/-- C9 amended: an entry whose `start_line` exceeds the document's line
count is not detected — `extract_sections` silently writes an empty file
for that entry and the run completes successfully. -/
theorem out_of_range_entry_silently_empty (sections : List SectionEntry)
    (lines : List String) (e : SectionEntry) (he : e ∈ sections)
    (h : lines.length < e.start_line) :
    FsEvent.write (modulePath e.path) "" ∈
      (extractSectionsWith sections (some lines)).1 ∧
    ∃ files, (extractSectionsWith sections (some lines)).2 =
      Except.ok files := by
  have hc : sectionContent lines e = "" := by
    unfold sectionContent
    rw [List.drop_eq_nil_of_le (by omega), List.take_nil]
    rfl
  constructor
  · rw [← hc]
    unfold extractSectionsWith
    apply List.mem_append_left
    exact List.mem_flatMap.mpr ⟨e, he, by simp [entryEvents]⟩
  · exact ⟨_, rfl⟩

/-- Witness for the amended C9: a one-entry manifest starting at line 7 of
a one-line document. -/
theorem out_of_range_entry_silently_empty_witness :
    ((⟨"pages/phantom.css", 7, 9⟩ : SectionEntry) ∈
      [(⟨"pages/phantom.css", 7, 9⟩ : SectionEntry)]) ∧
    (["y\n"] : List String).length < 7 ∧
    FsEvent.write (modulePath "pages/phantom.css") "" ∈
      (extractSectionsWith [⟨"pages/phantom.css", 7, 9⟩] (some ["y\n"])).1 :=
  ⟨by decide, by decide,
    (out_of_range_entry_silently_empty [⟨"pages/phantom.css", 7, 9⟩] ["y\n"]
      ⟨"pages/phantom.css", 7, 9⟩ (by decide) (by decide)).1⟩

/-- C10: for every manifest and every readable source document, the final
content written to `static/css/index.css` is exactly the fixed constant
`INDEX_TEMPLATE` — the aggregator is a hard-coded template, so changing or
adding a manifest entry never changes the aggregator's content. -/
theorem index_css_always_index_template (sections : List SectionEntry)
    (lines : List String) :
    finalWrite (extractSectionsWith sections (some lines)).1
      "static/css/index.css" = some INDEX_TEMPLATE := by
  unfold finalWrite extractSectionsWith
  simp [List.reverse_append, List.findSome?_cons, writeTo]
